import Mathlib

/-!
# Verification of the daily price tracker core (src/tracker.py)

A shallow embedding of the price-normalization, trend, history-store and
alert-deduplication logic of `src/tracker.py`.  Prices are modelled as
rationals, calendar dates as strings compared lexicographically (Python's
string order on `YYYY-MM-DD` stamps), and JSON-null-able values as `Option`.
The I/O shell (HTTP fetches, Telegram delivery, file handling, logging and
message formatting) is out of scope per the specification; fetched data and
file contents appear as explicit parameters.
-/

/-- Python string comparison `s1 <= s2` on the underlying character lists:
lexicographic by code point. -/
def charListLe : List Char → List Char → Bool
  | [], _ => true
  | _ :: _, [] => false
  | a :: as, b :: bs =>
    if a < b then true
    else if b < a then false
    else charListLe as bs

/-- Python `s1 <= s2` for strings (used on `YYYY-MM-DD` date stamps). -/
def strLe (s₁ s₂ : String) : Bool :=
  charListLe s₁.data s₂.data

/-- Python `s.endswith(post)`. -/
def strEndsWith (s post : String) : Bool :=
  post.data.isSuffixOf s.data

/-- `PENCE_THRESHOLD = 100` (tracker.py line 60). -/
def PENCE_THRESHOLD : ℚ := 100

/-- `HISTORY_DAYS = 90` (tracker.py line 63). -/
def HISTORY_DAYS : ℕ := 90

/-- The dict returned by `get_asset_price`: prices in GBP, and in USD when an
exchange rate was available (`None` fields modelled as `Option`). -/
structure PriceData where
  price_gbp : ℚ
  open_gbp : ℚ
  prev_close_gbp : ℚ
  price_usd : Option ℚ
  open_usd : Option ℚ
  prev_close_usd : Option ℚ
deriving Repr, DecidableEq

/-- The pence-detection block of `get_asset_price` (tracker.py lines 173-179):
if the ticker ends in `.L` and the raw current value exceeds
`PENCE_THRESHOLD`, divide current, open and previous close by 100. -/
def penceNormalize (ticker_symbol : String) (current_raw open_raw prev_close_raw : ℚ) :
    ℚ × ℚ × ℚ :=
  if strEndsWith ticker_symbol ".L" ∧ current_raw > PENCE_THRESHOLD then
    (current_raw / 100, open_raw / 100, prev_close_raw / 100)
  else
    (current_raw, open_raw, prev_close_raw)

/-- The currency-conversion block of `get_asset_price` (tracker.py lines
181-218).  A `USD`-native asset with no exchange rate yields `None`; a zero
rate would raise `ZeroDivisionError` in the source, which the enclosing
`except` turns into `None` as well.  A non-USD (GBP) native asset keeps its
GBP fields and derives USD fields only when a rate is present. -/
def convertPrices (native_currency : String) (gbp_usd_rate : Option ℚ)
    (raw : ℚ × ℚ × ℚ) : Option PriceData :=
  let (current_raw, open_raw, prev_close_raw) := raw
  if native_currency = "USD" then
    match gbp_usd_rate with
    | none => none
    | some rate =>
      if rate = 0 then none
      else
        some { price_gbp := current_raw / rate
               open_gbp := open_raw / rate
               prev_close_gbp := prev_close_raw / rate
               price_usd := some current_raw
               open_usd := some open_raw
               prev_close_usd := some prev_close_raw }
  else
    match gbp_usd_rate with
    | some rate =>
        some { price_gbp := current_raw
               open_gbp := open_raw
               prev_close_gbp := prev_close_raw
               price_usd := some (current_raw * rate)
               open_usd := some (open_raw * rate)
               prev_close_usd := some (prev_close_raw * rate) }
    | none =>
        some { price_gbp := current_raw
               open_gbp := open_raw
               prev_close_gbp := prev_close_raw
               price_usd := none
               open_usd := none
               prev_close_usd := none }

/-- `get_asset_price` (tracker.py lines 143-222), given the raw market samples
already fetched: pence normalization followed by currency conversion. -/
def get_asset_price (ticker_symbol native_currency : String) (gbp_usd_rate : Option ℚ)
    (current_raw open_raw prev_close_raw : ℚ) : Option PriceData :=
  convertPrices native_currency gbp_usd_rate
    (penceNormalize ticker_symbol current_raw open_raw prev_close_raw)

/-- One entry of `price_history.json`: a date stamp, a price per asset key
(JSON `null` allowed), and the exchange rate used that day. -/
structure HistoryEntry where
  date : String
  prices : List (String × Option ℚ)
  gbp_usd_rate : Option ℚ
deriving Repr, DecidableEq

/-- The whole history store `{"entries": [...]}`. -/
structure History where
  entries : List HistoryEntry
deriving Repr, DecidableEq

/-- `save_history` (tracker.py lines 234-248): keep exactly the entries with
`entry["date"] >= cutoff_str`. -/
def save_history (history : History) (cutoff_str : String) : History :=
  { entries := history.entries.filter (fun entry => strLe cutoff_str entry.date) }

/-- `asset_key in e["prices"] and e["prices"][asset_key] is not None`,
returning the price when both hold. -/
def entryPrice (e : HistoryEntry) (asset_key : String) : Option ℚ :=
  match e.prices.lookup asset_key with
  | some (some v) => some v
  | _ => none

/-- The `relevant` list of `calculate_trend` (tracker.py lines 256-259). -/
def relevantEntries (history : History) (asset_key : String) : List HistoryEntry :=
  history.entries.filter (fun e => (entryPrice e asset_key).isSome)

/-- Date-descending order on history entries, `relevant.sort(key=date,
reverse=True)` sorts by it (ties keep input order in both Python's stable
sort and `List.insertionSort`). -/
def dateGe (a b : HistoryEntry) : Prop :=
  strLe b.date a.date = true

instance : DecidableRel dateGe := fun _ _ =>
  inferInstanceAs (Decidable (_ = true))

/-- The `relevant` list after `relevant.sort(key=lambda x: x["date"],
reverse=True)` (tracker.py line 265). -/
def sortedRelevant (history : History) (asset_key : String) : List HistoryEntry :=
  List.insertionSort dateGe (relevantEntries history asset_key)

/-- `current = relevant[0]["prices"][asset_key]` (tracker.py line 267). -/
def trendCurrent (history : History) (asset_key : String) : ℚ :=
  (((sortedRelevant history asset_key).head?).bind (fun e => entryPrice e asset_key)).getD 0

/-- The `past` value of `calculate_trend` (tracker.py lines 269-273):
`relevant[-1]` when `len(relevant) <= days`, else `relevant[days]`. -/
def trendPast (history : History) (asset_key : String) (days : ℕ) : ℚ :=
  if (relevantEntries history asset_key).length ≤ days then
    (((sortedRelevant history asset_key).getLast?).bind (fun e => entryPrice e asset_key)).getD 0
  else
    (((sortedRelevant history asset_key)[days]?).bind (fun e => entryPrice e asset_key)).getD 0

/-- `calculate_trend` (tracker.py lines 251-278): fewer than two relevant
entries give `None`; a zero `past` gives `None`; otherwise the percentage
change `(current - past) / past * 100`. -/
def calculate_trend (history : History) (asset_key : String) (days : ℕ) : Option ℚ :=
  if (relevantEntries history asset_key).length < 2 then none
  else if trendPast history asset_key days = 0 then none
  else
    some ((trendCurrent history asset_key - trendPast history asset_key days) /
      trendPast history asset_key days * 100)

/-- The contents of `alerts_state.json`: a date stamp (JSON `null` allowed)
and the list of alert keys fired that day. -/
structure AlertsState where
  date : Option String
  fired : List String
deriving Repr, DecidableEq

/-- `load_alerts_state` (tracker.py lines 281-294), with the file contents as
a parameter (`none` = file missing): a missing file yields a null date and an
empty fired list; a persisted date different from today resets the state to
today with an empty fired list; otherwise the state is returned unchanged. -/
def load_alerts_state (file : Option AlertsState) (today : String) : AlertsState :=
  match file with
  | none => { date := none, fired := [] }
  | some state =>
    if state.date ≠ some today then { date := some today, fired := [] }
    else state

/-- `save_alerts_state` (tracker.py lines 297-305): unconditionally stamp
today's date onto the state before writing it. -/
def save_alerts_state (state : AlertsState) (today : String) : AlertsState :=
  { state with date := some today }

/-- The intraday alert key
`f"intraday_{asset_key}_{'+' if change_pct > 0 else '-'}"`
(tracker.py line 462). -/
def intradayKey (asset_key : String) (positive : Bool) : String :=
  "intraday_" ++ asset_key ++ (if positive then "_+" else "_-")

/-- The common shape of the three alert blocks of `cmd_watch` (tracker.py
lines 461-473, 479-487, 489-498): when the condition holds and the key has
not fired yet, append the key to `state["fired"]` and the alert to
`alerts_to_send` (messages are identified by their alert key; the formatted
text is out of scope per the specification). -/
def checkAlert (key : String) (triggered : Bool) (st : List String × List String) :
    List String × List String :=
  if triggered then
    if key ∈ st.1 then st
    else (st.1 ++ [key], st.2 ++ [key])
  else st

/-- The per-asset alert configuration resolved from `config` in `cmd_watch`:
`thresholds.get(asset_key, default_threshold)` and the optional
`above` / `below` absolute price alerts. -/
structure AssetAlertConfig where
  threshold : ℚ
  above : Option ℚ
  below : Option ℚ
deriving Repr, DecidableEq

/-- The body of the per-asset loop of `cmd_watch` (tracker.py lines 447-498)
on the running pair (fired keys, alerts to send): a missing quote is skipped
(`continue`); otherwise the intraday check runs first (guarded by a non-zero
opening price), then the `above` check, then the `below` check. -/
def watchAsset (asset_key : String) (price_data : Option PriceData)
    (cfg : AssetAlertConfig) (st : List String × List String) :
    List String × List String :=
  match price_data with
  | none => st
  | some d =>
    let current := d.price_gbp
    let open_price := d.open_gbp
    let st₁ :=
      if open_price ≠ 0 then
        let change_pct := (current - open_price) / open_price * 100
        checkAlert (intradayKey asset_key (decide (change_pct > 0)))
          (decide (|change_pct| ≥ cfg.threshold)) st
      else st
    let st₂ :=
      match cfg.above with
      | some a => checkAlert ("price_above_" ++ asset_key) (decide (current ≥ a)) st₁
      | none => st₁
    match cfg.below with
    | some b => checkAlert ("price_below_" ++ asset_key) (decide (current ≤ b)) st₂
    | none => st₂

/-- The whole asset loop of `cmd_watch`, over the fetched quotes of the
configured assets in iteration order. -/
def watchLoop (assets : List (String × Option PriceData × AssetAlertConfig))
    (st : List String × List String) : List String × List String :=
  assets.foldl (fun acc asset => watchAsset asset.1 asset.2.1 asset.2.2 acc) st

/-- One `cmd_watch` evaluation cycle (tracker.py lines 428-510): load the
alert state (the persisted file contents and today's date are parameters),
run the asset loop starting from the loaded fired keys and an empty alert
list, and save the state with today's date stamped on.  Returns the saved
state and the alerts sent. -/
def cmd_watch (file : Option AlertsState) (today : String)
    (assets : List (String × Option PriceData × AssetAlertConfig)) :
    AlertsState × List String :=
  let state := load_alerts_state file today
  let result := watchLoop assets (state.fired, [])
  (save_alerts_state { state with fired := result.1 } today, result.2)

/-- The data-unavailable marker line of `cmd_summary` (tracker.py line 357),
`f"*{name}*: ⚠️ Data unavailable"`. -/
def unavailableMarker (name : String) : String :=
  "*" ++ name ++ "*: " ++ "⚠️ Data unavailable"

/-- The per-asset loop of `cmd_summary` (tracker.py lines 353-404) on the
running pair (collected prices, message lines): a missing quote appends the
explicit data-unavailable marker and records no price (`continue`); a
successful quote records `prices[asset_key] = price_gbp` and appends the
rendered lines for the asset (`render` abstracts the formatted price,
change and trend lines, which are out of scope per the specification). -/
def summaryLoop (render : String → String → PriceData → List String)
    (assets : List (String × String × Option PriceData))
    (acc : List (String × ℚ) × List String) : List (String × ℚ) × List String :=
  match assets with
  | [] => acc
  | (asset_key, name, price_data) :: rest =>
    match price_data with
    | none =>
        summaryLoop render rest (acc.1, acc.2 ++ [unavailableMarker name, ""])
    | some d =>
        summaryLoop render rest
          (acc.1 ++ [(asset_key, d.price_gbp)], acc.2 ++ render asset_key name d)

/-- The history write of `cmd_summary` (tracker.py lines 410-420): when any
price was collected, drop every existing entry for today, append today's
entry, and `save_history` the result (which trims entries older than the
cutoff). -/
def summaryWrite (history : History) (today : String) (prices : List (String × ℚ))
    (gbp_usd_rate : Option ℚ) (cutoff_str : String) : History :=
  if prices = [] then history
  else
    save_history
      { entries :=
          history.entries.filter (fun e => decide (e.date ≠ today)) ++
            [{ date := today
               prices := prices.map (fun p => (p.1, some p.2))
               gbp_usd_rate := gbp_usd_rate }] }
      cutoff_str

/-- **C10**: when no alert-state file exists, loading returns an empty fired
set whose date field is null rather than today's date; today's date is only
stamped by `save_alerts_state`, which unconditionally overwrites the date
field with the current date and keeps the fired keys. -/
theorem c10_missing_state_null_date_save_stamps (today : String) (state : AlertsState) :
    load_alerts_state none today = { date := none, fired := [] } ∧
    (load_alerts_state none today).date ≠ some today ∧
    (save_alerts_state state today).date = some today ∧
    (save_alerts_state state today).fired = state.fired :=
  ⟨rfl, by simp [load_alerts_state], rfl, rfl⟩

/-- **C5**: loading persisted alert state on a calendar date different from
the stored date yields an empty fired set stamped with today's date,
discarding the previously fired keys; loading on the same date returns the
persisted state unchanged. -/
theorem c5_state_reset_on_new_day (state : AlertsState) (today : String) :
    (state.date ≠ some today →
      load_alerts_state (some state) today = { date := some today, fired := [] }) ∧
    (state.date = some today → load_alerts_state (some state) today = state) :=
  ⟨fun h => by simp [load_alerts_state, h],
   fun h => by simp [load_alerts_state, h]⟩

/-- Witness for C5 at a concrete persisted state and dates. -/
theorem c5_state_reset_on_new_day_witness :
    load_alerts_state (some ⟨some "2026-02-01", ["intraday_gold_gbp_+"]⟩) "2026-02-02" =
      { date := some "2026-02-02", fired := [] } ∧
    load_alerts_state (some ⟨some "2026-02-02", ["intraday_gold_gbp_+"]⟩) "2026-02-02" =
      ⟨some "2026-02-02", ["intraday_gold_gbp_+"]⟩ :=
  ⟨(c5_state_reset_on_new_day ⟨some "2026-02-01", ["intraday_gold_gbp_+"]⟩ "2026-02-02").1
      (by decide),
   (c5_state_reset_on_new_day ⟨some "2026-02-02", ["intraday_gold_gbp_+"]⟩ "2026-02-02").2
      (by decide)⟩

/-- **C3**: a USD-native instrument with no exchange rate fails normalization
entirely; a GBP-native instrument with no rate still yields the GBP price,
open and previous close (the pence-normalized raws), with all USD fields
absent. -/
theorem c3_rate_unavailable_usd_fails_gbp_partial (ticker_symbol : String)
    (current_raw open_raw prev_close_raw : ℚ) :
    get_asset_price ticker_symbol "USD" none current_raw open_raw prev_close_raw = none ∧
    get_asset_price ticker_symbol "GBP" none current_raw open_raw prev_close_raw =
      some { price_gbp := (penceNormalize ticker_symbol current_raw open_raw prev_close_raw).1
             open_gbp := (penceNormalize ticker_symbol current_raw open_raw prev_close_raw).2.1
             prev_close_gbp :=
               (penceNormalize ticker_symbol current_raw open_raw prev_close_raw).2.2
             price_usd := none
             open_usd := none
             prev_close_usd := none } := by
  have h : ∀ raw : ℚ × ℚ × ℚ,
      convertPrices "USD" none raw = none ∧
      convertPrices "GBP" none raw =
        some ⟨raw.1, raw.2.1, raw.2.2, none, none, none⟩ := by
    rintro ⟨c, o, p⟩
    exact ⟨rfl, rfl⟩
  exact ⟨(h _).1, (h _).2⟩

/-- **C2**: on a minor-unit-ambiguous market (ticker ending in `.L`), a raw
current value strictly above 100 makes normalization divide current, open
and previous close by 100 together, before any currency conversion (the
conversion step consumes exactly the pence-normalized triple); a raw current
value at most 100 leaves all three values undivided. -/
theorem c2_pence_division_all_or_none (ticker_symbol : String)
    (current_raw open_raw prev_close_raw : ℚ)
    (hL : strEndsWith ticker_symbol ".L" = true) :
    (current_raw > 100 →
      penceNormalize ticker_symbol current_raw open_raw prev_close_raw =
        (current_raw / 100, open_raw / 100, prev_close_raw / 100)) ∧
    (current_raw ≤ 100 →
      penceNormalize ticker_symbol current_raw open_raw prev_close_raw =
        (current_raw, open_raw, prev_close_raw)) ∧
    (∀ native_currency gbp_usd_rate,
      get_asset_price ticker_symbol native_currency gbp_usd_rate
          current_raw open_raw prev_close_raw =
        convertPrices native_currency gbp_usd_rate
          (penceNormalize ticker_symbol current_raw open_raw prev_close_raw)) := by
  refine ⟨fun h => ?_, fun h => ?_, fun _ _ => rfl⟩
  · rw [penceNormalize, if_pos ⟨hL, h⟩]
  · rw [penceNormalize, if_neg]
    rintro ⟨-, h₂⟩
    exact absurd h₂ (not_lt.mpr h)

/-- Witness for C2: raw 650 pence on `HBKS.L` is divided to 6.50, raw 99 is
left alone. -/
theorem c2_pence_division_all_or_none_witness :
    strEndsWith "HBKS.L" ".L" = true ∧
    penceNormalize "HBKS.L" 650 640 630 = (650 / 100, 640 / 100, 630 / 100) ∧
    penceNormalize "ISWD.L" 99 98 97 = (99, 98, 97) :=
  ⟨by decide,
   (c2_pence_division_all_or_none "HBKS.L" 650 640 630 (by decide)).1 (by decide),
   (c2_pence_division_all_or_none "ISWD.L" 99 98 97 (by decide)).2.1 (by decide)⟩

/-- **C7**: after a history save, an entry is kept exactly when its
calendar-date string is at or inside the retention cutoff (string
comparison), and the kept entries form a sublist of the original store
(retained unchanged, in order). -/
theorem c7_retention_trim (history : History) (cutoff_str : String) (e : HistoryEntry) :
    (e ∈ (save_history history cutoff_str).entries ↔
      e ∈ history.entries ∧ strLe cutoff_str e.date = true) ∧
    (save_history history cutoff_str).entries.Sublist history.entries :=
  ⟨by simp [save_history, List.mem_filter], List.filter_sublist _⟩

/-- **C9**: a zero past value makes the trend not-available rather than
raising, and a produced percentage is only ever the guarded division with a
non-zero past value. -/
theorem c9_zero_past_not_available (history : History) (asset_key : String) (days : ℕ) :
    (trendPast history asset_key days = 0 → calculate_trend history asset_key days = none) ∧
    (∀ x, calculate_trend history asset_key days = some x →
      trendPast history asset_key days ≠ 0 ∧
      x = (trendCurrent history asset_key - trendPast history asset_key days) /
          trendPast history asset_key days * 100) := by
  constructor
  · intro h
    simp [calculate_trend, h]
  · intro x hx
    rw [calculate_trend] at hx
    split at hx
    · simp at hx
    · split at hx
      · simp at hx
      · next hpast => exact ⟨hpast, (Option.some_inj.mp hx).symm⟩

/-- Witness for C9: a history whose oldest relevant price is 0 yields a zero
past value and a not-available trend. -/
theorem c9_zero_past_not_available_witness :
    trendPast ⟨[⟨"2026-01-02", [("x", some 1)], none⟩,
                ⟨"2026-01-01", [("x", some 0)], none⟩]⟩ "x" 5 = 0 ∧
    calculate_trend ⟨[⟨"2026-01-02", [("x", some 1)], none⟩,
                      ⟨"2026-01-01", [("x", some 0)], none⟩]⟩ "x" 5 = none :=
  ⟨by decide,
   (c9_zero_past_not_available ⟨[⟨"2026-01-02", [("x", some 1)], none⟩,
      ⟨"2026-01-01", [("x", some 0)], none⟩]⟩ "x" 5).1 (by decide)⟩

/-- **C6**: two summary writes on the same calendar date leave exactly one
entry for that date in the store, and it carries the prices and exchange
rate of the second write. -/
theorem c6_same_day_write_replaces (history : History) (today cutoff_str : String)
    (prices₁ prices₂ : List (String × ℚ)) (rate₁ rate₂ : Option ℚ)
    (hcut : strLe cutoff_str today = true) (hp : prices₂ ≠ []) :
    (summaryWrite (summaryWrite history today prices₁ rate₁ cutoff_str)
        today prices₂ rate₂ cutoff_str).entries.filter
        (fun e => decide (e.date = today)) =
      [{ date := today
         prices := prices₂.map (fun p => (p.1, some p.2))
         gbp_usd_rate := rate₂ }] := by
  have key : ∀ h : History,
      (summaryWrite h today prices₂ rate₂ cutoff_str).entries.filter
          (fun e => decide (e.date = today)) =
        [{ date := today, prices := prices₂.map (fun p => (p.1, some p.2)),
           gbp_usd_rate := rate₂ }] := by
    intro h
    rw [summaryWrite, if_neg hp]
    simp only [save_history, List.filter_append, List.filter_filter]
    rw [List.filter_eq_nil_iff.mpr]
    · simp [hcut]
    · intro a _
      simp only [Bool.and_eq_true, decide_eq_true_eq, ne_eq]
      tauto
  exact key _

/-- Witness for C6: a second same-day write over an existing store leaves
exactly the second write's entry for that date. -/
theorem c6_same_day_write_replaces_witness :
    strLe "2025-11-04" "2026-02-02" = true ∧
    ([(("gold_gbp" : String), (11 : ℚ))] ≠ []) ∧
    (summaryWrite (summaryWrite ⟨[⟨"2026-02-02", [("gold_gbp", some 5)], some 2⟩]⟩
          "2026-02-02" [("gold_gbp", 10)] (some 1) "2025-11-04")
        "2026-02-02" [("gold_gbp", 11)] (some 2) "2025-11-04").entries.filter
        (fun e => decide (e.date = "2026-02-02")) =
      [{ date := "2026-02-02", prices := [("gold_gbp", some 11)], gbp_usd_rate := some 2 }] :=
  ⟨by decide, by decide,
   c6_same_day_write_replaces ⟨[⟨"2026-02-02", [("gold_gbp", some 5)], some 2⟩]⟩
     "2026-02-02" "2025-11-04" [("gold_gbp", 10)] [("gold_gbp", 11)] (some 1) (some 2)
     (by decide) (by decide)⟩

theorem charListLe_refl : ∀ l : List Char, charListLe l l = true
  | [] => rfl
  | a :: as => by simp [charListLe, lt_irrefl a, charListLe_refl as]

theorem strLe_refl (s : String) : strLe s s = true :=
  charListLe_refl s.data

theorem charListLe_total : ∀ l₁ l₂ : List Char,
    charListLe l₁ l₂ = true ∨ charListLe l₂ l₁ = true
  | [], _ => Or.inl rfl
  | _ :: _, [] => Or.inr rfl
  | a :: as, b :: bs => by
    rcases lt_trichotomy a b with h | h | h
    · left
      simp [charListLe, h]
    · subst h
      rcases charListLe_total as bs with ih | ih
      · left
        simp [charListLe, lt_irrefl a, ih]
      · right
        simp [charListLe, lt_irrefl a, ih]
    · right
      simp [charListLe, h]

theorem charListLe_trans : ∀ l₁ l₂ l₃ : List Char,
    charListLe l₁ l₂ = true → charListLe l₂ l₃ = true → charListLe l₁ l₃ = true
  | [], _, _, _, _ => rfl
  | _ :: _, [], _, h₁, _ => by simp [charListLe] at h₁
  | _ :: _, _ :: _, [], _, h₂ => by simp [charListLe] at h₂
  | a :: as, b :: bs, c :: cs, h₁, h₂ => by
    rcases lt_trichotomy a b with hab | hab | hab
    · rcases lt_trichotomy b c with hbc | hbc | hbc
      · simp [charListLe, lt_trans hab hbc]
      · subst hbc
        simp [charListLe, hab]
      · rw [charListLe, if_neg (asymm hbc), if_pos hbc] at h₂
        exact absurd h₂ (by simp)
    · subst hab
      rcases lt_trichotomy a c with hac | hac | hac
      · simp [charListLe, hac]
      · subst hac
        rw [charListLe, if_neg (lt_irrefl a), if_neg (lt_irrefl a)] at h₁ h₂ ⊢
        exact charListLe_trans as bs cs h₁ h₂
      · rw [charListLe, if_neg (asymm hac), if_pos hac] at h₂
        exact absurd h₂ (by simp)
    · rw [charListLe, if_neg (asymm hab), if_pos hab] at h₁
      exact absurd h₁ (by simp)

instance : IsTotal HistoryEntry dateGe :=
  ⟨fun a b => (charListLe_total b.date.data a.date.data).elim Or.inl Or.inr⟩

instance : IsTrans HistoryEntry dateGe :=
  ⟨fun _ b _ hab hbc => charListLe_trans _ b.date.data _ hbc hab⟩

/-- In a `Pairwise R` list, the last element is reached by `R` from every
other element. -/
theorem pairwise_getLast {α : Type} {R : α → α → Prop} :
    ∀ {l : List α} {b : α}, l.Pairwise R → l.getLast? = some b →
      ∀ a ∈ l, a = b ∨ R a b := by
  intro l
  induction l with
  | nil => intro b _ hl; simp at hl
  | cons x xs ih =>
    intro b hp hl a ha
    cases xs with
    | nil =>
      simp at hl ha
      subst ha
      exact Or.inl hl
    | cons y ys =>
      rw [List.getLast?_cons_cons] at hl
      rcases List.mem_cons.mp ha with rfl | ha₂
      · exact Or.inr ((List.pairwise_cons.mp hp).1 b
          (List.mem_of_getLast?_eq_some hl))
      · exact ih (List.pairwise_cons.mp hp).2 hl a ha₂

/-- In a `Pairwise R` list, the head reaches every other element by `R`. -/
theorem pairwise_head {α : Type} {R : α → α → Prop} {l : List α} {b : α}
    (hp : l.Pairwise R) (hl : l.head? = some b) :
    ∀ a ∈ l, a = b ∨ R b a := by
  intro a ha
  match l, hl with
  | x :: xs, hl =>
    simp at hl
    subst hl
    rcases List.mem_cons.mp ha with rfl | ha₂
    · exact Or.inl rfl
    · exact Or.inr ((List.pairwise_cons.mp hp).1 a ha₂)

/-- **C4**: with fewer than 2 relevant entries the trend is not-available;
with `2 ≤ count ≤ N` the past value comes from the last entry of the
date-descending-sorted relevant list, which is an oldest relevant entry;
with `count > N` it comes from the entry exactly `N` positions back in that
sorted list; and the current value always comes from the head of the sorted
list, which is a most recent relevant entry. -/
theorem c4_trend_window_selection (history : History) (asset_key : String) (days : ℕ) :
    ((relevantEntries history asset_key).length < 2 →
      calculate_trend history asset_key days = none) ∧
    (2 ≤ (relevantEntries history asset_key).length →
      (relevantEntries history asset_key).length ≤ days →
      ∃ e, (sortedRelevant history asset_key).getLast? = some e ∧
        trendPast history asset_key days = (entryPrice e asset_key).getD 0 ∧
        e ∈ relevantEntries history asset_key ∧
        ∀ e₂ ∈ relevantEntries history asset_key, strLe e.date e₂.date = true) ∧
    (days < (relevantEntries history asset_key).length →
      ∃ e, (sortedRelevant history asset_key)[days]? = some e ∧
        trendPast history asset_key days = (entryPrice e asset_key).getD 0 ∧
        e ∈ relevantEntries history asset_key) ∧
    (2 ≤ (relevantEntries history asset_key).length →
      ∃ e, (sortedRelevant history asset_key).head? = some e ∧
        trendCurrent history asset_key = (entryPrice e asset_key).getD 0 ∧
        e ∈ relevantEntries history asset_key ∧
        ∀ e₂ ∈ relevantEntries history asset_key, strLe e₂.date e.date = true) := by
  have hlen : (sortedRelevant history asset_key).length =
      (relevantEntries history asset_key).length :=
    (List.perm_insertionSort dateGe _).length_eq
  have hmem : ∀ {e : HistoryEntry}, e ∈ sortedRelevant history asset_key →
      e ∈ relevantEntries history asset_key :=
    fun he => (List.perm_insertionSort dateGe _).mem_iff.mp he
  have hsorted : (sortedRelevant history asset_key).Pairwise dateGe :=
    List.sorted_insertionSort dateGe _
  refine ⟨fun h => by simp [calculate_trend, h], fun h₂ hle => ?_, fun hlt => ?_,
    fun h₂ => ?_⟩
  · have hne : sortedRelevant history asset_key ≠ [] := by
      intro hnil
      rw [hnil] at hlen
      simp at hlen
      omega
    obtain ⟨e, he⟩ := Option.isSome_iff_exists.mp (List.getLast?_isSome.mpr hne)
    refine ⟨e, he, ?_, hmem (List.mem_of_getLast?_eq_some he), ?_⟩
    · rw [trendPast, if_pos hle, he]
      rfl
    · intro e₂ he₂
      rcases pairwise_getLast hsorted he e₂ ((List.mem_insertionSort dateGe).mpr he₂) with rfl | hR
      · exact strLe_refl _
      · exact hR
  · have hidx : days < (sortedRelevant history asset_key).length := by omega
    refine ⟨(sortedRelevant history asset_key)[days], List.getElem?_eq_getElem hidx, ?_, ?_⟩
    · rw [trendPast, if_neg (not_le.mpr hlt), List.getElem?_eq_getElem hidx]
      rfl
    · exact hmem (List.getElem_mem hidx)
  · have hne : sortedRelevant history asset_key ≠ [] := by
      intro hnil
      rw [hnil] at hlen
      simp at hlen
      omega
    refine ⟨_, List.head?_eq_head hne, ?_, hmem (List.head_mem hne), ?_⟩
    · rw [trendCurrent, List.head?_eq_head hne]
      rfl
    · intro e₂ he₂
      rcases pairwise_head hsorted (List.head?_eq_head hne) e₂
          ((List.mem_insertionSort dateGe).mpr he₂) with rfl | hR
      · exact strLe_refl _
      · exact hR

/-- Witness for C4: a one-entry history is not-available; a three-entry
history with window 5 takes the oldest entry as past, with window 1 the
entry one position back, and the newest entry as current. -/
theorem c4_trend_window_selection_witness :
    calculate_trend ⟨[⟨"2026-01-01", [("x", some 1)], none⟩]⟩ "x" 5 = none ∧
    (∃ e, (sortedRelevant ⟨[⟨"2026-01-01", [("x", some 1)], none⟩,
          ⟨"2026-01-02", [("x", some 2)], none⟩,
          ⟨"2026-01-03", [("x", some 3)], none⟩]⟩ "x").getLast? = some e ∧
      trendPast ⟨[⟨"2026-01-01", [("x", some 1)], none⟩,
          ⟨"2026-01-02", [("x", some 2)], none⟩,
          ⟨"2026-01-03", [("x", some 3)], none⟩]⟩ "x" 5 = (entryPrice e "x").getD 0 ∧
      e ∈ relevantEntries ⟨[⟨"2026-01-01", [("x", some 1)], none⟩,
          ⟨"2026-01-02", [("x", some 2)], none⟩,
          ⟨"2026-01-03", [("x", some 3)], none⟩]⟩ "x" ∧
      ∀ e₂ ∈ relevantEntries ⟨[⟨"2026-01-01", [("x", some 1)], none⟩,
          ⟨"2026-01-02", [("x", some 2)], none⟩,
          ⟨"2026-01-03", [("x", some 3)], none⟩]⟩ "x", strLe e.date e₂.date = true) ∧
    (∃ e, (sortedRelevant ⟨[⟨"2026-01-01", [("x", some 1)], none⟩,
          ⟨"2026-01-02", [("x", some 2)], none⟩,
          ⟨"2026-01-03", [("x", some 3)], none⟩]⟩ "x")[1]? = some e ∧
      trendPast ⟨[⟨"2026-01-01", [("x", some 1)], none⟩,
          ⟨"2026-01-02", [("x", some 2)], none⟩,
          ⟨"2026-01-03", [("x", some 3)], none⟩]⟩ "x" 1 = (entryPrice e "x").getD 0 ∧
      e ∈ relevantEntries ⟨[⟨"2026-01-01", [("x", some 1)], none⟩,
          ⟨"2026-01-02", [("x", some 2)], none⟩,
          ⟨"2026-01-03", [("x", some 3)], none⟩]⟩ "x") ∧
    (∃ e, (sortedRelevant ⟨[⟨"2026-01-01", [("x", some 1)], none⟩,
          ⟨"2026-01-02", [("x", some 2)], none⟩,
          ⟨"2026-01-03", [("x", some 3)], none⟩]⟩ "x").head? = some e ∧
      trendCurrent ⟨[⟨"2026-01-01", [("x", some 1)], none⟩,
          ⟨"2026-01-02", [("x", some 2)], none⟩,
          ⟨"2026-01-03", [("x", some 3)], none⟩]⟩ "x" = (entryPrice e "x").getD 0 ∧
      e ∈ relevantEntries ⟨[⟨"2026-01-01", [("x", some 1)], none⟩,
          ⟨"2026-01-02", [("x", some 2)], none⟩,
          ⟨"2026-01-03", [("x", some 3)], none⟩]⟩ "x" ∧
      ∀ e₂ ∈ relevantEntries ⟨[⟨"2026-01-01", [("x", some 1)], none⟩,
          ⟨"2026-01-02", [("x", some 2)], none⟩,
          ⟨"2026-01-03", [("x", some 3)], none⟩]⟩ "x", strLe e₂.date e.date = true) :=
  ⟨(c4_trend_window_selection ⟨[⟨"2026-01-01", [("x", some 1)], none⟩]⟩ "x" 5).1 (by decide),
   (c4_trend_window_selection ⟨[⟨"2026-01-01", [("x", some 1)], none⟩,
      ⟨"2026-01-02", [("x", some 2)], none⟩,
      ⟨"2026-01-03", [("x", some 3)], none⟩]⟩ "x" 5).2.1 (by decide) (by decide),
   (c4_trend_window_selection ⟨[⟨"2026-01-01", [("x", some 1)], none⟩,
      ⟨"2026-01-02", [("x", some 2)], none⟩,
      ⟨"2026-01-03", [("x", some 3)], none⟩]⟩ "x" 1).2.2.1 (by decide),
   (c4_trend_window_selection ⟨[⟨"2026-01-01", [("x", some 1)], none⟩,
      ⟨"2026-01-02", [("x", some 2)], none⟩,
      ⟨"2026-01-03", [("x", some 3)], none⟩]⟩ "x" 5).2.2.2 (by decide)⟩

/-- The `+` and `-` intraday alert keys of one instrument differ. -/
theorem intradayKey_pos_ne_neg (asset_key : String) :
    intradayKey asset_key true ≠ intradayKey asset_key false := by
  intro h
  have hd : ("intraday_" ++ asset_key ++ "_+").data =
      ("intraday_" ++ asset_key ++ "_-").data := congrArg String.data h
  simp only [String.data_append] at hd
  exact absurd (List.append_cancel_left hd) (by decide)

theorem checkAlert_not_fired {key : String} {st : List String × List String}
    (h : key ∉ st.1) : checkAlert key true st = (st.1 ++ [key], st.2 ++ [key]) := by
  simp [checkAlert, h]

theorem checkAlert_fired {key : String} {st : List String × List String}
    (h : key ∈ st.1) : checkAlert key true st = st := by
  simp [checkAlert, h]

/-- With only the intraday alert configured, the per-asset watch step is the
guarded intraday check. -/
theorem watchAsset_intraday (asset_key : String) (d : PriceData) (thr : ℚ)
    (st : List String × List String) (h : d.open_gbp ≠ 0) :
    watchAsset asset_key (some d) ⟨thr, none, none⟩ st =
      checkAlert
        (intradayKey asset_key (decide ((d.price_gbp - d.open_gbp) / d.open_gbp * 100 > 0)))
        (decide (|(d.price_gbp - d.open_gbp) / d.open_gbp * 100| ≥ thr)) st := by
  simp [watchAsset, h]

/-- **C1**: the intraday `+` and `-` keys of an instrument are distinct; in a
same-day watch cycle a triggered move whose key has not fired emits exactly
that alert and appends exactly that key to the fired set, while a triggered
move whose key already fired emits nothing and leaves the fired set
unchanged; and the cycle stamps today's date, so the fired set survives to
later cycles of the same day.  Hence `+` and `-` each fire exactly once when
triggered, and each at most once per day. -/
theorem c1_intraday_sign_keys_dedup (asset_key today : String) (s : AlertsState)
    (d : PriceData) (thr : ℚ)
    (hdate : s.date = some today)
    (hopen : d.open_gbp ≠ 0)
    (hthr : |(d.price_gbp - d.open_gbp) / d.open_gbp * 100| ≥ thr) :
    intradayKey asset_key true ≠ intradayKey asset_key false ∧
    (intradayKey asset_key (decide ((d.price_gbp - d.open_gbp) / d.open_gbp * 100 > 0))
        ∉ s.fired →
      (cmd_watch (some s) today [(asset_key, some d, ⟨thr, none, none⟩)]).2 =
        [intradayKey asset_key
          (decide ((d.price_gbp - d.open_gbp) / d.open_gbp * 100 > 0))] ∧
      (cmd_watch (some s) today [(asset_key, some d, ⟨thr, none, none⟩)]).1.fired =
        s.fired ++ [intradayKey asset_key
          (decide ((d.price_gbp - d.open_gbp) / d.open_gbp * 100 > 0))]) ∧
    (intradayKey asset_key (decide ((d.price_gbp - d.open_gbp) / d.open_gbp * 100 > 0))
        ∈ s.fired →
      (cmd_watch (some s) today [(asset_key, some d, ⟨thr, none, none⟩)]).2 = [] ∧
      (cmd_watch (some s) today [(asset_key, some d, ⟨thr, none, none⟩)]).1.fired =
        s.fired) ∧
    (cmd_watch (some s) today [(asset_key, some d, ⟨thr, none, none⟩)]).1.date =
      some today := by
  have hload : load_alerts_state (some s) today = s := by
    simp [load_alerts_state, hdate]
  have hw : watchLoop [(asset_key, some d, ⟨thr, none, none⟩)] (s.fired, []) =
      checkAlert
        (intradayKey asset_key (decide ((d.price_gbp - d.open_gbp) / d.open_gbp * 100 > 0)))
        true (s.fired, []) := by
    rw [watchLoop, List.foldl_cons, List.foldl_nil, watchAsset_intraday _ _ _ _ hopen,
      decide_eq_true hthr]
  refine ⟨intradayKey_pos_ne_neg asset_key, fun hnot => ?_, fun hmem => ?_, ?_⟩
  · rw [cmd_watch, hload, hw, checkAlert_not_fired hnot]
    exact ⟨rfl, rfl⟩
  · rw [cmd_watch, hload, hw, checkAlert_fired hmem]
    exact ⟨rfl, rfl⟩
  · rw [cmd_watch]
    rfl

/-- Witness for C1: a +3% move over threshold 2% on a fresh same-day state
fires exactly the `+` key; the keys for `+` and `-` are distinct. -/
theorem c1_intraday_sign_keys_dedup_witness :
    ((⟨some "2026-02-02", []⟩ : AlertsState).date = some "2026-02-02") ∧
    ((100 : ℚ) ≠ 0) ∧
    |((103 : ℚ) - 100) / 100 * 100| ≥ 2 ∧
    intradayKey "gold_gbp" true ≠ intradayKey "gold_gbp" false ∧
    (cmd_watch (some ⟨some "2026-02-02", []⟩) "2026-02-02"
        [("gold_gbp", some ⟨103, 100, 100, none, none, none⟩, ⟨2, none, none⟩)]).2 =
      [intradayKey "gold_gbp" (decide (((103 : ℚ) - 100) / 100 * 100 > 0))] ∧
    (cmd_watch (some ⟨some "2026-02-02", []⟩) "2026-02-02"
        [("gold_gbp", some ⟨103, 100, 100, none, none, none⟩, ⟨2, none, none⟩)]).1.fired =
      [intradayKey "gold_gbp" (decide (((103 : ℚ) - 100) / 100 * 100 > 0))] ∧
    (cmd_watch (some ⟨some "2026-02-02", []⟩) "2026-02-02"
        [("gold_gbp", some ⟨103, 100, 100, none, none, none⟩, ⟨2, none, none⟩)]).1.date =
      some "2026-02-02" := by
  have h := c1_intraday_sign_keys_dedup "gold_gbp" "2026-02-02" ⟨some "2026-02-02", []⟩
    ⟨103, 100, 100, none, none, none⟩ 2 rfl (by norm_num)
    (by rw [abs_of_pos] <;> norm_num)
  have h₂ := h.2.1 (by simp)
  exact ⟨rfl, by norm_num, by rw [abs_of_pos] <;> norm_num, h.1, h₂.1, h₂.2, h.2.2.2⟩

/-- A missing quote makes the per-asset watch step a no-op (`continue`). -/
theorem watchAsset_none (asset_key : String) (cfg : AssetAlertConfig)
    (st : List String × List String) : watchAsset asset_key none cfg st = st :=
  rfl

/-- The collected prices of the summary loop do not depend on the message
lines accumulated so far. -/
theorem summaryLoop_fst (render : String → String → PriceData → List String) :
    ∀ (assets : List (String × String × Option PriceData))
      (prices : List (String × ℚ)) (lines₁ lines₂ : List String),
      (summaryLoop render assets (prices, lines₁)).1 =
        (summaryLoop render assets (prices, lines₂)).1
  | [], _, _, _ => rfl
  | (_, _, none) :: rest, prices, _, _ =>
      summaryLoop_fst render rest prices _ _
  | (_, _, some _) :: rest, _, _, _ =>
      summaryLoop_fst render rest _ _ _

/-- Lines already accumulated survive the rest of the summary loop. -/
theorem summaryLoop_lines_mem (render : String → String → PriceData → List String) :
    ∀ (assets : List (String × String × Option PriceData))
      (acc : List (String × ℚ) × List String) (x : String),
      x ∈ acc.2 → x ∈ (summaryLoop render assets acc).2
  | [], _, _, hx => hx
  | (_, _, none) :: rest, acc, x, hx =>
      summaryLoop_lines_mem render rest _ x (by simp [hx])
  | (_, _, some _) :: rest, acc, x, hx =>
      summaryLoop_lines_mem render rest _ x (by simp [hx])

/-- A failed asset's prices contribution is nothing: dropping it from the
iteration changes no collected price. -/
theorem summaryLoop_skip_fst (render : String → String → PriceData → List String)
    (asset_key name : String) (ys : List (String × String × Option PriceData)) :
    ∀ (xs : List (String × String × Option PriceData))
      (acc : List (String × ℚ) × List String),
      (summaryLoop render (xs ++ (asset_key, name, none) :: ys) acc).1 =
        (summaryLoop render (xs ++ ys) acc).1
  | [], acc => summaryLoop_fst render ys acc.1 _ _
  | (_, _, none) :: rest, _ =>
      summaryLoop_skip_fst render asset_key name ys rest _
  | (_, _, some _) :: rest, _ =>
      summaryLoop_skip_fst render asset_key name ys rest _

/-- The data-unavailable marker of a failed asset appears in the summary. -/
theorem summaryLoop_marker_mem (render : String → String → PriceData → List String)
    (asset_key name : String) (ys : List (String × String × Option PriceData)) :
    ∀ (xs : List (String × String × Option PriceData))
      (acc : List (String × ℚ) × List String),
      unavailableMarker name ∈
        (summaryLoop render (xs ++ (asset_key, name, none) :: ys) acc).2
  | [], acc => summaryLoop_lines_mem render ys _ _ (by simp)
  | (_, _, none) :: rest, _ =>
      summaryLoop_marker_mem render asset_key name ys rest _
  | (_, _, some _) :: rest, _ =>
      summaryLoop_marker_mem render asset_key name ys rest _

/-- **C8**: a normalization failure for one instrument does not abort the
cycle: the watch loop behaves exactly as if the failed instrument were
absent (so every other instrument is evaluated and no alert key is recorded
for the failed one), the summary loop records exactly the prices it would
record without the failed instrument (no history price for it), and the
summary lines contain the explicit data-unavailable marker for it. -/
theorem c8_per_instrument_failure_isolated
    (xs ys : List (String × Option PriceData × AssetAlertConfig))
    (asset_key : String) (cfg : AssetAlertConfig) (st : List String × List String)
    (render : String → String → PriceData → List String)
    (xs₂ ys₂ : List (String × String × Option PriceData)) (name : String)
    (acc : List (String × ℚ) × List String) :
    watchLoop (xs ++ (asset_key, none, cfg) :: ys) st = watchLoop (xs ++ ys) st ∧
    (summaryLoop render (xs₂ ++ (asset_key, name, none) :: ys₂) acc).1 =
      (summaryLoop render (xs₂ ++ ys₂) acc).1 ∧
    unavailableMarker name ∈
      (summaryLoop render (xs₂ ++ (asset_key, name, none) :: ys₂) acc).2 := by
  refine ⟨?_, summaryLoop_skip_fst render asset_key name ys₂ xs₂ acc,
    summaryLoop_marker_mem render asset_key name ys₂ xs₂ acc⟩
  simp only [watchLoop, List.foldl_append, List.foldl_cons, watchAsset_none]
